import Mathlib

/-!
Shallow embedding of `src/main.ts` of celerity/ci-report-action.

The action downloads per-build log artifacts, extracts compiler warnings
matching a Clang-style pattern, reads a list of unformatted files, and
submits one check run whose output carries at most a fixed number of
annotations.  The I/O boundary (artifact download, file read, the Checks
API call) is abstracted away: the pure content of each function is
translated directly, with machine strings as `String`/`List Char` and JS
numbers on digit strings as `Nat`.
-/

/-- The `BuildWarning` record (main.ts lines 8-13).  `line` and `column`
come from `Number.parseInt` applied to `\d+` captures, hence naturals. -/
structure BuildWarning where
  path : String
  line : Nat
  column : Nat
  message : String
deriving DecidableEq

/-- The `annotation_level` union type of the `Annotation` interface
(main.ts line 23). -/
inductive AnnotLevel where
  | notice
  | warning
  | failure
deriving DecidableEq

/-- The `Annotation` interface (main.ts lines 17-25); `start_column` and
`end_column` are optional fields, absent on the formatting annotations. -/
structure Annot where
  path : String
  start_line : Nat
  end_line : Nat
  start_column : Option Nat
  end_column : Option Nat
  annotation_level : AnnotLevel
  message : String
deriving DecidableEq

/-! ## Log parser (main.ts lines 49-61)

One line is matched against `/(^.*):(\d+):(\d+): warning:(.*)$/`.  JS `.`
(no `s` flag) matches every character but a line terminator; `(^.*)` is
greedy, so the engine tries the longest prefix first and backtracks one
character at a time; each `\d+` takes the maximal digit run (the character
after it must be `:`, which no digit is, so no further backtracking can
arise there). -/

/-- JS regex `.` without the `s` flag: any character except a
LineTerminator (U+000A, U+000D, U+2028, U+2029). -/
def isRegexDot (c : Char) : Bool :=
  !(c = '\n' || c = '\r' || c = '\u2028' || c = '\u2029')

/-- Value of an all-digit capture, as `Number.parseInt` reads it. -/
def natOfDigits (l : List Char) : Nat :=
  l.foldl (fun n c => 10 * n + (c.toNat - '0'.toNat)) 0

/-- The literal part `": warning:"` of the pattern. -/
def warningMarker : List Char := (": warning:").toList

/-- Match `:(\d+):(\d+): warning:(.*)$` against the text after the group-1
capture; returns the two digit captures and the message capture. -/
def matchTail (r : List Char) : Option (List Char × List Char × List Char) :=
  match r with
  | [] => none
  | c :: r1 =>
    if c = ':' then
      let d1 := r1.takeWhile Char.isDigit
      let r2 := r1.dropWhile Char.isDigit
      if d1 = [] then none
      else
        match r2 with
        | [] => none
        | c2 :: r3 =>
          if c2 = ':' then
            let d2 := r3.takeWhile Char.isDigit
            let r4 := r3.dropWhile Char.isDigit
            if d2 = [] then none
            else if r4.take warningMarker.length = warningMarker then
              let msg := r4.drop warningMarker.length
              if msg.all isRegexDot then some (d1, d2, msg) else none
            else none
          else none
    else none

/-- One attempt of the greedy `(^.*)` at prefix length `k`: every character
of the capture must be `.`-matchable and the rest must match the tail. -/
def tryAt (l : List Char) (k : Nat) :
    Option (List Char × List Char × List Char × List Char) :=
  if (l.take k).all isRegexDot then
    match matchTail (l.drop k) with
    | some (d1, d2, msg) => some (l.take k, d1, d2, msg)
    | none => none
  else none

/-- Greedy backtracking for group 1: longest prefix first. -/
def lineMatchAux (l : List Char) : Nat →
    Option (List Char × List Char × List Char × List Char)
  | 0 => tryAt l 0
  | k + 1 =>
    match tryAt l (k + 1) with
    | some m => some m
    | none => lineMatchAux l k

/-- `line.match(/(^.*):(\d+):(\d+): warning:(.*)$/)` (main.ts line 52). -/
def lineMatch (l : List Char) :
    Option (List Char × List Char × List Char × List Char) :=
  lineMatchAux l l.length

/-- The record built from one matching line (main.ts lines 54-61): the path
capture loses its first three characters (`m[1].substr(3)`), the digit
captures go through `parseInt`, the message is kept verbatim. -/
def parseLine (l : List Char) : Option BuildWarning :=
  match lineMatch l with
  | some (p, d1, d2, msg) =>
    some { path := String.mk (p.drop 3)
           line := natOfDigits d1
           column := natOfDigits d2
           message := String.mk msg }
  | none => none

/-- JS `String.prototype.split('\n')`: fields between separators, kept even
when empty; the empty string yields one empty field. -/
def splitLines : List Char → List (List Char)
  | [] => [[]]
  | c :: cs =>
    if c = '\n' then [] :: splitLines cs
    else
      match splitLines cs with
      | l :: ls => (c :: l) :: ls
      | [] => [[c]]

/-- Warnings extracted from one build log (main.ts lines 49-61): split on
newlines, match each line, keep the matches in order. -/
def getWarningsFromLog (log : String) : List BuildWarning :=
  (splitLines log.toList).filterMap parseLine

/-- The pure part of `getBuildWarnings` (main.ts lines 42-69): the artifact
list stands as (name, log text) pairs; a build whose log yields no warning
contributes no entry, and the mapping keeps insertion order. -/
def getBuildWarnings (artifacts : List (String × String)) :
    List (String × List BuildWarning) :=
  artifacts.filterMap fun a =>
    let ws := getWarningsFromLog a.2
    if ws.length > 0 then some (a.1, ws) else none

/-! ## Format-violation collector (main.ts lines 72-78) -/

/-- The characters `String.prototype.trim` strips (the WhiteSpace and
LineTerminator productions; listed are the ones that occur in practice). -/
def isJsWhitespace (c : Char) : Bool :=
  c = ' ' || c = '\t' || c = '\n' || c = '\r' || c = '\x0b' || c = '\x0c' ||
  c = '\u00a0' || c = '\ufeff' || c = '\u2028' || c = '\u2029'

/-- JS `s.trim()` on a line. -/
def jsTrim (l : List Char) : List Char :=
  ((l.dropWhile isJsWhitespace).reverse.dropWhile isJsWhitespace).reverse

/-- `getUnformattedFiles` (main.ts lines 72-78) applied to the
`unformatted-files` input string: split on newlines, trim each line, drop
the lines that trim to nothing. -/
def getUnformattedFiles (input : String) : List String :=
  (((splitLines input.toList).map jsTrim).filter
    (fun l => decide (l ≠ []))).map String.mk

/-! ## Report aggregator (main.ts lines 100-166, 197-209) -/

/-- `MAX_ANNOTATIONS` (main.ts line 81). -/
def MAX_ANNOTATIONS : Nat := 50

/-- `Math.max(0, MAX_ANNOTATIONS - unformattedFiles.length)` (main.ts lines
105-108); truncated `Nat` subtraction is exactly the clamp at 0. -/
def maxWarningAnnotations (unformattedFiles : List String) : Nat :=
  MAX_ANNOTATIONS - unformattedFiles.length

/-- The annotation pushed for one build warning (main.ts lines 117-125). -/
def mkWarnAnnot (buildName : String) (w : BuildWarning) : Annot :=
  { path := w.path
    start_line := w.line
    end_line := w.line
    start_column := some w.column
    end_column := some w.column
    annotation_level := .warning
    message := "Build \"" ++ buildName ++ "\" generated warning: " ++ w.message }

/-- The inner `for (const w of warnings)` loop (main.ts lines 115-126): the
shared counter is pre-incremented and tested against the budget BEFORE the
push (`if (++warningAnnotationsCreated >= maxWarningAnnotations) break`),
and `break` leaves the rest of this build's warnings unvisited.  Returns
the final counter and the annotations pushed, in order. -/
def emitBuild (M : Nat) (buildName : String) :
    List BuildWarning → Nat → Nat × List Annot
  | [], c => (c, [])
  | w :: ws, c =>
    if M ≤ c + 1 then (c + 1, [])
    else
      let r := emitBuild M buildName ws (c + 1)
      (r.1, mkWarnAnnot buildName w :: r.2)

/-- The `buildWarnings.forEach` loop (main.ts lines 113-127): the counter
persists across builds. -/
def emitAll (M : Nat) :
    List (String × List BuildWarning) → Nat → Nat × List Annot
  | [], c => (c, [])
  | b :: bs, c =>
    let r1 := emitBuild M b.1 b.2 c
    let r2 := emitAll M bs r1.1
    (r2.1, r1.2 ++ r2.2)

/-- `totalWarningCount` (main.ts lines 111-114): the per-build length is
added before the annotation loop runs, so this is the true total. -/
def totalWarnings (bw : List (String × List BuildWarning)) : Nat :=
  (bw.map fun b => b.2.length).sum

/-- The header line and per-build lines of the warnings detail text
(main.ts lines 132-135). -/
def warningsTextBase (bw : List (String × List BuildWarning)) : String :=
  bw.foldl (fun acc b => acc ++ "- " ++ b.1 ++ ": " ++ toString b.2.length ++ "\n")
    "⚠\uFE0F Warnings were generated for the following build(s):\n"

/-- The truncation notice (main.ts line 137). -/
def truncationNotice (M T : Nat) : String :=
  "\n\nShowing first **" ++ toString M ++ "** warnings out of **" ++
    toString T ++ "** total."

/-- The warnings detail text (main.ts lines 132-139): the notice is added
exactly when `totalWarningCount >= maxWarningAnnotations`. -/
def warningsText (bw : List (String × List BuildWarning)) (M : Nat) : String :=
  if M ≤ totalWarnings bw then warningsTextBase bw ++ truncationNotice M (totalWarnings bw)
  else warningsTextBase bw

/-- Summary sentence when some build warned (main.ts line 130). -/
def warnSummary (n m : Nat) : String :=
  "Warnings were generated for " ++ toString n ++ " of " ++ toString m ++ " build(s)."

/-- Summary sentence when no build warned (main.ts line 141). -/
def noWarningsSummary : String := "No warnings were generated."

/-- Summary sentence on formatting violations (main.ts line 156). -/
def fmtFailSummary : String :=
  "Some files are not formatted according to `.clang-format`."

/-- Summary sentence when formatting is clean (main.ts line 164). -/
def fmtOkSummary : String :=
  "All files are formatted according to `.clang-format`."

/-- The failure annotation pushed for one unformatted file (main.ts lines
146-152): line 1, no columns. -/
def mkFmtAnnot (f : String) : Annot :=
  { path := f
    start_line := 1
    end_line := 1
    start_column := none
    end_column := none
    annotation_level := .failure
    message := "File is not formatted according to `.clang-format`." }

/-- The formatting detail text (main.ts lines 158-161). -/
def fmtText (u : List String) : String :=
  "\uFE0F❌ The following files are not formatted according to `.clang-format`:\n" ++
    String.intercalate "\n" (u.map fun f => "- " ++ f)

/-- The check run's `conclusion` values used by main.ts lines 198-203. -/
inductive Conclusion where
  | success
  | action_required
  | failure
deriving DecidableEq

/-- The aggregate output handed to `octocat.rest.checks.create`. -/
structure Report where
  annotations : List Annot
  summarySections : List String
  textSections : List String
  conclusion : Conclusion
deriving DecidableEq

/-- The aggregation core of `run` (main.ts lines 100-166) with the
conclusion computation (lines 197-203), as a pure function of the warning
mapping, the number of builds and the unformatted-file list.  When the
mapping is empty the guarded warning block contributes nothing, which is
also what `emitAll` on `[]` yields, so the annotation list needs no guard. -/
def mkReport (bw : List (String × List BuildWarning)) (numBuilds : Nat)
    (u : List String) : Report :=
  let M := maxWarningAnnotations u
  let warnAnns := (emitAll M bw 0).2
  let fmtAnns := u.map mkFmtAnnot
  { annotations := warnAnns ++ fmtAnns
    summarySections :=
      [if bw.length > 0 then warnSummary bw.length numBuilds else noWarningsSummary,
       if u.length > 0 then fmtFailSummary else fmtOkSummary]
    textSections :=
      (if bw.length > 0 then [warningsText bw M] else []) ++
        (if u.length > 0 then [fmtText u] else [])
    conclusion :=
      if u.length > 0 then .failure
      else if bw.length > 0 then .action_required
      else .success }

/-! ## Publisher tail (main.ts lines 212-221) -/

/-- The check-creation response, modelled by the one field `run` reads. -/
structure CheckResponse where
  status : Nat
deriving DecidableEq

/-- JS template-literal stringification of the whole response object in
`` `Failed to create check: ${response}` `` (main.ts line 213): a plain
object stringifies to "[object Object]" whatever its fields hold. -/
def jsObjectString (_r : CheckResponse) : String := "[object Object]"

/-- What `run` signals to the invoking pipeline. -/
inductive RunOutcome where
  | failed (msg : String)
  | ok
deriving DecidableEq

/-- Main.ts lines 212-221: fail on a non-201 response; otherwise fail with
`summarySections[1]` whenever unformatted files exist; otherwise succeed. -/
def finishRun (response : CheckResponse) (r : Report) (u : List String) :
    RunOutcome :=
  if response.status ≠ 201 then
    .failed ("Failed to create check: " ++ jsObjectString response)
  else if u.length > 0 then
    .failed (r.summarySections.getD 1 "")
  else .ok

/-! ## Concrete sample inputs used by the example theorems -/

/-- A sample parsed warning. -/
def sampleWarning : BuildWarning :=
  { path := "a.cpp", line := 1, column := 1, message := " m" }

/-- 48 unformatted files: leaves a warning budget of 2. -/
def files48 : List String := List.replicate 48 "f.cpp"

/-- One build carrying 5 warnings. -/
def bw5 : List (String × List BuildWarning) :=
  [("build", List.replicate 5 sampleWarning)]

/-! ## Counting lemmas for the annotation loop -/

/-- Number of annotations one build contributes: the pre-increment test
caps the whole run at `M - 1` pushes, of which `M - 1 - c` remain. -/
theorem emitBuild_len (M : Nat) (n : String) (ws : List BuildWarning) :
    ∀ c, ((emitBuild M n ws c).2).length = min ws.length (M - 1 - c) := by
  induction ws with
  | nil => intro c; simp [emitBuild]
  | cons w ws ih =>
    intro c
    by_cases h : M ≤ c + 1
    · simp [emitBuild, h]
    · simp [emitBuild, h, ih (c + 1)]; omega

/-- How the remaining budget shrinks across one build. -/
theorem emitBuild_fst (M : Nat) (n : String) (ws : List BuildWarning) :
    ∀ c, M - 1 - (emitBuild M n ws c).1 = (M - 1 - c) - ws.length := by
  induction ws with
  | nil => intro c; simp [emitBuild]
  | cons w ws ih =>
    intro c
    by_cases h : M ≤ c + 1
    · simp [emitBuild, h]; omega
    · simp [emitBuild, h, ih (c + 1)]; omega

/-- Total number of warning annotations the `forEach` loop pushes. -/
theorem emitAll_len (M : Nat) (bw : List (String × List BuildWarning)) :
    ∀ c, ((emitAll M bw c).2).length = min (totalWarnings bw) (M - 1 - c) := by
  induction bw with
  | nil => intro c; simp [emitAll, totalWarnings]
  | cons b bs ih =>
    intro c
    simp [emitAll, totalWarnings, emitBuild_len, ih, emitBuild_fst]; omega

/-- Every annotation the warning loop pushes is warning-level. -/
theorem emitBuild_level (M : Nat) (n : String) (ws : List BuildWarning) :
    ∀ c a, a ∈ (emitBuild M n ws c).2 → a.annotation_level = AnnotLevel.warning := by
  induction ws with
  | nil => intro c a ha; simp [emitBuild] at ha
  | cons w ws ih =>
    intro c a ha
    by_cases h : M ≤ c + 1
    · simp [emitBuild, h] at ha
    · simp [emitBuild, h] at ha
      rcases ha with rfl | ha
      · rfl
      · exact ih (c + 1) a ha

/-- Every annotation `emitAll` yields is warning-level. -/
theorem emitAll_level (M : Nat) (bw : List (String × List BuildWarning)) :
    ∀ c a, a ∈ (emitAll M bw c).2 → a.annotation_level = AnnotLevel.warning := by
  induction bw with
  | nil => intro c a ha; simp [emitAll] at ha
  | cons b bs ih =>
    intro c a ha
    simp [emitAll] at ha
    rcases ha with ha | ha
    · exact emitBuild_level M b.1 b.2 c a ha
    · exact ih _ a ha

/-- The warning-level annotations of a report are exactly the ones the
warning loop pushed, so their number is `min total (budget - 1)`. -/
theorem report_warn_count (bw : List (String × List BuildWarning))
    (numBuilds : Nat) (u : List String) :
    ((mkReport bw numBuilds u).annotations.filter
        (fun a => decide (a.annotation_level = AnnotLevel.warning))).length
      = min (totalWarnings bw) (maxWarningAnnotations u - 1) := by
  have h1 : ((emitAll (maxWarningAnnotations u) bw 0).2.filter
      (fun a => decide (a.annotation_level = AnnotLevel.warning)))
      = (emitAll (maxWarningAnnotations u) bw 0).2 :=
    List.filter_eq_self.mpr fun a ha => by
      simp [emitAll_level (maxWarningAnnotations u) bw 0 a ha]
  have h2 : ((u.map mkFmtAnnot).filter
      (fun a => decide (a.annotation_level = AnnotLevel.warning))) = [] := by
    rw [List.filter_eq_nil_iff]
    intro a ha
    simp only [List.mem_map] at ha
    obtain ⟨f, _, rfl⟩ := ha
    simp [mkFmtAnnot]
  simp only [mkReport, List.filter_append, h1, h2, List.append_nil]
  exact emitAll_len (maxWarningAnnotations u) bw 0

/-- The failure-level annotations of a report are exactly the formatting
annotations, one per unformatted file. -/
theorem report_fail_count (bw : List (String × List BuildWarning))
    (numBuilds : Nat) (u : List String) :
    ((mkReport bw numBuilds u).annotations.filter
        (fun a => decide (a.annotation_level = AnnotLevel.failure))).length
      = u.length := by
  have h1 : ((emitAll (maxWarningAnnotations u) bw 0).2.filter
      (fun a => decide (a.annotation_level = AnnotLevel.failure))) = [] := by
    rw [List.filter_eq_nil_iff]
    intro a ha
    simp [emitAll_level (maxWarningAnnotations u) bw 0 a ha]
  have h2 : ((u.map mkFmtAnnot).filter
      (fun a => decide (a.annotation_level = AnnotLevel.failure)))
      = u.map mkFmtAnnot :=
    List.filter_eq_self.mpr fun a ha => by
      simp only [List.mem_map] at ha
      obtain ⟨f, _, rfl⟩ := ha
      simp [mkFmtAnnot]
  simp [mkReport, List.filter_append, h1, h2]

/-- Length of the annotation list of a report. -/
theorem report_ann_count (bw : List (String × List BuildWarning))
    (numBuilds : Nat) (u : List String) :
    (mkReport bw numBuilds u).annotations.length
      = min (totalWarnings bw) (maxWarningAnnotations u - 1) + u.length := by
  simp [mkReport, emitAll_len]

/-! ## Adequacy of the line matcher -/

/-- A successful tail match decomposes its input as the literal colon, the
first digit capture, a colon, the second digit capture, the literal
`": warning:"` and the message capture. -/
theorem matchTail_spec (r d1 d2 msg : List Char)
    (h : matchTail r = some (d1, d2, msg)) :
    r = ':' :: (d1 ++ ':' :: (d2 ++ (warningMarker ++ msg))) ∧
      d1 ≠ [] ∧ (∀ c ∈ d1, c.isDigit) ∧ d2 ≠ [] ∧ (∀ c ∈ d2, c.isDigit) := by
  match r with
  | [] => simp [matchTail] at h
  | c :: r1 =>
    simp only [matchTail] at h
    split at h
    case isFalse => exact absurd h (by simp)
    case isTrue hc =>
      split at h
      case isTrue => exact absurd h (by simp)
      case isFalse hd1 =>
        split at h
        case h_1 => exact absurd h (by simp)
        case h_2 c2 r3 hr2 =>
          split at h
          case isFalse => exact absurd h (by simp)
          case isTrue hc2 =>
            split at h
            case isTrue => exact absurd h (by simp)
            case isFalse hd2 =>
              split at h
              case isFalse => exact absurd h (by simp)
              case isTrue hmark =>
                split at h
                case isFalse => exact absurd h (by simp)
                case isTrue hdot =>
                  injection h with h
                  simp only [Prod.mk.injEq] at h
                  obtain ⟨rfl, rfl, rfl⟩ := h
                  subst hc hc2
                  refine ⟨?_, hd1, fun c hc => List.mem_takeWhile_imp hc,
                    hd2, fun c hc => List.mem_takeWhile_imp hc⟩
                  have e1 : r1.takeWhile Char.isDigit ++ r1.dropWhile Char.isDigit = r1 :=
                    List.takeWhile_append_dropWhile Char.isDigit r1
                  have e3 : r3.takeWhile Char.isDigit ++ r3.dropWhile Char.isDigit = r3 :=
                    List.takeWhile_append_dropWhile Char.isDigit r3
                  have e4 : (r3.dropWhile Char.isDigit).take warningMarker.length ++
                      (r3.dropWhile Char.isDigit).drop warningMarker.length =
                      r3.dropWhile Char.isDigit :=
                    List.take_append_drop _ _
                  conv_lhs => rw [← e1, hr2, ← e3, ← e4, hmark]

/-- A successful attempt at prefix length `k` captured exactly `l.take k`
and tail-matched the rest. -/
theorem tryAt_spec (l : List Char) (k : Nat) (p d1 d2 msg : List Char)
    (h : tryAt l k = some (p, d1, d2, msg)) :
    p = l.take k ∧ matchTail (l.drop k) = some (d1, d2, msg) := by
  simp only [tryAt] at h
  split at h
  case isFalse => exact absurd h (by simp)
  case isTrue =>
    split at h
    case h_1 d1' d2' msg' heq =>
      injection h with h
      simp only [Prod.mk.injEq] at h
      obtain ⟨rfl, rfl, rfl, rfl⟩ := h
      exact ⟨rfl, heq⟩
    case h_2 => exact absurd h (by simp)

/-- A greedy-search success at fuel `k` comes from an attempt at some
prefix length `j ≤ k`. -/
theorem lineMatchAux_spec (l : List Char) (k : Nat)
    (m : List Char × List Char × List Char × List Char)
    (h : lineMatchAux l k = some m) : ∃ j, j ≤ k ∧ tryAt l j = some m := by
  induction k with
  | zero => exact ⟨0, Nat.le_refl 0, h⟩
  | succ k ih =>
    rw [lineMatchAux] at h
    split at h
    case h_1 m' heq =>
      injection h with h
      subst h
      exact ⟨k + 1, Nat.le_refl _, heq⟩
    case h_2 =>
      obtain ⟨j, hj, hTry⟩ := ih h
      exact ⟨j, Nat.le_succ_of_le hj, hTry⟩

/-- A successful line parse decomposes its line as path capture, colon,
digits, colon, digits, the literal `": warning:"` and the message capture,
and builds the record from those captures. -/
theorem parseLine_shape (l : List Char) (w : BuildWarning)
    (h : parseLine l = some w) :
    ∃ p d1 d2 msg,
      l = p ++ ':' :: (d1 ++ ':' :: (d2 ++ (warningMarker ++ msg))) ∧
      d1 ≠ [] ∧ (∀ c ∈ d1, c.isDigit) ∧ d2 ≠ [] ∧ (∀ c ∈ d2, c.isDigit) ∧
      w.path = String.mk (p.drop 3) ∧ w.line = natOfDigits d1 ∧
      w.column = natOfDigits d2 ∧ w.message = String.mk msg := by
  simp only [parseLine] at h
  split at h
  case h_1 p d1 d2 msg heq =>
    injection h with h
    subst h
    rw [lineMatch] at heq
    obtain ⟨j, _, hTry⟩ := lineMatchAux_spec l l.length _ heq
    obtain ⟨hp, hTail⟩ := tryAt_spec l j p d1 d2 msg hTry
    obtain ⟨hdec, h1, h2, h3, h4⟩ := matchTail_spec _ d1 d2 msg hTail
    refine ⟨p, d1, d2, msg, ?_, h1, h2, h3, h4, rfl, rfl, rfl, rfl⟩
    rw [← List.take_append_drop j l, hdec, ← hp]
  case h_2 => exact absurd h (by simp)

/-! ## Claims -/

/-- C1 fails as stated: 51 unformatted files alone already produce 51
annotations, because formatting annotations are never capped. -/
theorem c1_counterexample :
    ¬ ((mkReport [] 1 (List.replicate 51 "f.cpp")).annotations.length ≤ 50) := by
  have h := report_ann_count [] 1 (List.replicate 51 "f.cpp")
  simp only [totalWarnings, List.map_nil, List.sum_nil, Nat.zero_min,
    List.length_replicate, Nat.zero_add] at h
  omega

/-- C1 (amended): whenever at most 50 files are unformatted, the report
holds at most 50 annotations; and violation annotations always have
reservation priority: every unformatted file gets its failure annotation,
warnings only fill the remaining budget. -/
theorem c1_cap (bw : List (String × List BuildWarning)) (numBuilds : Nat)
    (u : List String) (h : u.length ≤ 50) :
    (mkReport bw numBuilds u).annotations.length ≤ 50 ∧
      ((mkReport bw numBuilds u).annotations.filter
          (fun a => decide (a.annotation_level = AnnotLevel.failure))).length
        = u.length := by
  refine ⟨?_, report_fail_count bw numBuilds u⟩
  have hc := report_ann_count bw numBuilds u
  have hM : maxWarningAnnotations u = 50 - u.length := by
    simp [maxWarningAnnotations, MAX_ANNOTATIONS]
  omega

/-- C1 witness: one unformatted file, no warnings. -/
theorem c1_cap_witness :
    (mkReport [] 1 ["a.cpp"]).annotations.length ≤ 50 ∧
      ((mkReport [] 1 ["a.cpp"]).annotations.filter
          (fun a => decide (a.annotation_level = AnnotLevel.failure))).length
        = ["a.cpp"].length :=
  c1_cap [] 1 ["a.cpp"] (by decide)

/-- C2: with 48 unformatted files the budget is 2 and one build carries 5
warnings, yet the code emits only 1 warning annotation — not
min(budget, total) = 2 — because the counter is pre-incremented and tested
against the budget before the push. -/
theorem c2_code_eval :
    maxWarningAnnotations files48 = 2 ∧ totalWarnings bw5 = 5 ∧
      ((mkReport bw5 1 files48).annotations.filter
          (fun a => decide (a.annotation_level = AnnotLevel.warning))).length = 1 ∧
      ((mkReport bw5 1 files48).annotations.filter
          (fun a => decide (a.annotation_level = AnnotLevel.warning))).length ≠
        min (maxWarningAnnotations files48) (totalWarnings bw5) := by
  have hM : maxWarningAnnotations files48 = 2 := by decide
  have hT : totalWarnings bw5 = 5 := by decide
  have hw := report_warn_count bw5 1 files48
  rw [hM, hT] at hw
  norm_num at hw
  exact ⟨hM, hT, hw, by rw [hw, hM, hT]; decide⟩

/-- C3: the conclusion is `failure` exactly when unformatted files exist,
`action_required` exactly when there are none but some build warned, and
`success` otherwise. -/
theorem c3_verdict (bw : List (String × List BuildWarning)) (numBuilds : Nat)
    (u : List String) :
    ((mkReport bw numBuilds u).conclusion = Conclusion.failure ↔ u ≠ []) ∧
      ((mkReport bw numBuilds u).conclusion = Conclusion.action_required ↔
        (u = [] ∧ bw ≠ [])) ∧
      ((mkReport bw numBuilds u).conclusion = Conclusion.success ↔
        (u = [] ∧ bw = [])) := by
  rcases u with _ | ⟨x, u⟩ <;> rcases bw with _ | ⟨b, bw⟩ <;> simp [mkReport]

/-- C5: the sample log line parses to exactly the claimed record, leading
space of the message retained. -/
theorem c5_example_line :
    getWarningsFromLog "../src/a.cpp:12:4: warning: unused variable 'x'" =
      [{ path := "src/a.cpp", line := 12, column := 4,
         message := " unused variable 'x'" }] := by
  decide

/-- C6: the collector keeps an ordered sublist of the trimmed lines (no
reordering, no deduplication), every survivor is a trimmed, non-empty line,
and the two sample inputs evaluate as claimed. -/
theorem c6_collector :
    (∀ s : String, List.Sublist (getUnformattedFiles s)
        (((splitLines s.toList).map jsTrim).map String.mk)) ∧
      (∀ s : String, ∀ x ∈ getUnformattedFiles s,
        x ≠ "" ∧ ∃ l ∈ splitLines s.toList, x = String.mk (jsTrim l)) ∧
      getUnformattedFiles " foo.log \n\nbar.txt" = ["foo.log", "bar.txt"] ∧
      getUnformattedFiles "a\na" = ["a", "a"] := by
  refine ⟨fun s => (List.filter_sublist _).map _, fun s x hx => ?_,
    by decide, by decide⟩
  simp only [getUnformattedFiles, List.mem_map, List.mem_filter,
    decide_eq_true_eq] at hx
  obtain ⟨l, ⟨hl, hne⟩, rfl⟩ := hx
  obtain ⟨l0, hl0, rfl⟩ := hl
  refine ⟨?_, l0, hl0, rfl⟩
  intro hcontra
  exact hne (congrArg String.data hcontra)

/-- C7: at budget 2 with 5 total warnings the notice is appended and claims
2 warnings shown, but only 1 warning annotation is actually emitted. -/
theorem c7_code_eval :
    (mkReport bw5 1 files48).textSections.headD ""
        = "⚠️ Warnings were generated for the following build(s):\n- build: 5\n\n\nShowing first **2** warnings out of **5** total." ∧
      ((mkReport bw5 1 files48).annotations.filter
          (fun a => decide (a.annotation_level = AnnotLevel.warning))).length = 1 := by
  constructor
  · rfl
  · have hw := report_warn_count bw5 1 files48
    rw [show maxWarningAnnotations files48 = 2 by decide,
      show totalWarnings bw5 = 5 by decide] at hw
    simpa using hw

/-- C8: on a non-201 response the failure message is the constant
"Failed to create check: [object Object]" — the status (here 409 or 500)
is not part of it — while a 201 response with no unformatted files signals
no failure. -/
theorem c8_code_eval :
    finishRun ⟨409⟩ (mkReport [] 1 []) [] =
        RunOutcome.failed "Failed to create check: [object Object]" ∧
      finishRun ⟨500⟩ (mkReport [] 1 []) [] =
        RunOutcome.failed "Failed to create check: [object Object]" ∧
      finishRun ⟨201⟩ (mkReport [] 1 []) [] = RunOutcome.ok :=
  ⟨rfl, rfl, rfl⟩

/-- C9: whenever unformatted files exist, the run fails even though the
submission returned 201, with the formatting summary as the message. -/
theorem c9_policy_failure (bw : List (String × List BuildWarning))
    (numBuilds : Nat) (u : List String) (h : u ≠ []) :
    finishRun ⟨201⟩ (mkReport bw numBuilds u) u =
      RunOutcome.failed
        "Some files are not formatted according to `.clang-format`." := by
  rcases u with _ | ⟨x, u⟩
  · exact absurd rfl h
  · simp [finishRun, mkReport, fmtFailSummary]

/-- C9 witness: one unformatted file, successful submission. -/
theorem c9_policy_failure_witness :
    finishRun ⟨201⟩ (mkReport [] 1 ["a.cpp"]) ["a.cpp"] =
      RunOutcome.failed
        "Some files are not formatted according to `.clang-format`." :=
  c9_policy_failure [] 1 ["a.cpp"] (by decide)

/-- C10: the annotation list is the warning-level annotations followed by
the failure-level formatting annotations, and every formatting annotation
sits at line 1 with both column fields absent. -/
theorem c10_annotation_layout (bw : List (String × List BuildWarning))
    (numBuilds : Nat) (u : List String) :
    ∃ ws fs, (mkReport bw numBuilds u).annotations = ws ++ fs ∧
      (∀ a ∈ ws, a.annotation_level = AnnotLevel.warning) ∧
      (∀ a ∈ fs, a.annotation_level = AnnotLevel.failure ∧ a.start_line = 1 ∧
        a.end_line = 1 ∧ a.start_column = none ∧ a.end_column = none) := by
  refine ⟨(emitAll (maxWarningAnnotations u) bw 0).2, u.map mkFmtAnnot, rfl,
    fun a ha => emitAll_level (maxWarningAnnotations u) bw 0 a ha, ?_⟩
  intro a ha
  obtain ⟨f, _, rfl⟩ := List.mem_map.mp ha
  exact ⟨rfl, rfl, rfl, rfl, rfl⟩

/-- C4 fails as stated: the log line "../../a.cpp:0:0: warning: m" parses
to a warning with line 0, column 0, and a path that still begins with
"../" (only one fixed "../" prefix is stripped). -/
theorem c4_counterexample :
    ¬ (∀ w ∈ getWarningsFromLog "../../a.cpp:0:0: warning: m",
        0 < w.line ∧ 0 < w.column ∧ w.path.startsWith "../" = false) := by
  decide

/-- C4 (amended): every `BuildWarning` the log parser emits comes from one
line of the log of the form `<path>:<digits>:<digits>: warning:<message>`;
its `line` and `column` are the numeric values of the digit captures (hence
nonnegative, but 0 is possible) and its `path` is the path capture with its
first three characters removed (which can still start with "../"). -/
theorem c4_parse_shape (log : String) (w : BuildWarning)
    (h : w ∈ getWarningsFromLog log) :
    ∃ l ∈ splitLines log.toList, ∃ p d1 d2 msg,
      l = p ++ ':' :: (d1 ++ ':' :: (d2 ++ (warningMarker ++ msg))) ∧
      d1 ≠ [] ∧ (∀ c ∈ d1, c.isDigit) ∧ d2 ≠ [] ∧ (∀ c ∈ d2, c.isDigit) ∧
      w.path = String.mk (p.drop 3) ∧ w.line = natOfDigits d1 ∧
      w.column = natOfDigits d2 ∧ w.message = String.mk msg := by
  obtain ⟨l, hl, hp⟩ := List.mem_filterMap.mp h
  exact ⟨l, hl, parseLine_shape l w hp⟩

/-- C4 witness: the one-line log "a.cpp:1:2: warning: hi". -/
theorem c4_parse_shape_witness :
    ∃ l ∈ splitLines ("a.cpp:1:2: warning: hi").toList, ∃ p d1 d2 msg,
      l = p ++ ':' :: (d1 ++ ':' :: (d2 ++ (warningMarker ++ msg))) ∧
        d1 ≠ [] ∧ (∀ c ∈ d1, c.isDigit) ∧ d2 ≠ [] ∧ (∀ c ∈ d2, c.isDigit) ∧
        (BuildWarning.mk "pp" 1 2 " hi").path = String.mk (p.drop 3) ∧
        (BuildWarning.mk "pp" 1 2 " hi").line = natOfDigits d1 ∧
        (BuildWarning.mk "pp" 1 2 " hi").column = natOfDigits d2 ∧
        (BuildWarning.mk "pp" 1 2 " hi").message = String.mk msg :=
  c4_parse_shape "a.cpp:1:2: warning: hi" (BuildWarning.mk "pp" 1 2 " hi")
    (by decide)
